import Mathlib

/-!
Verification of the `notebook_utils` helper library of the openvino_notebooks
repository, as a shallow embedding in Lean 4.

The helpers are embedded faithfully from the source notebook:
numeric arrays are lists of rationals (for `normalize_minmax`) or lists of
naturals with an explicit shape (for the segmentation helpers); the local
filesystem is an association list from paths to byte lists; the network is a
function from URLs to optional responses.  External library routines (OpenCV
color conversion and contour drawing, urllib, the inference runtime) are
modelled by their documented effect and noted at each definition.
-/

namespace NotebookUtils

/-! ## Images: pixel conversion helpers -/

/-- Maximum of a nonempty list of rationals, as `numpy.ndarray.max` computes it
over the flattened data; `0` on the empty array (where numpy raises). -/
def npMax : List ℚ → ℚ
  | [] => 0
  | x :: xs => xs.foldl max x

/-- Minimum of a nonempty list of rationals, as `numpy.ndarray.min` computes it
over the flattened data; `0` on the empty array (where numpy raises). -/
def npMin : List ℚ → ℚ
  | [] => 0
  | x :: xs => xs.foldl min x

/-- The message of the `ValueError` of `normalize_minmax`. -/
def normalizeErrorMsg : String :=
  "Normalization is not possible because all elements of data have the same value"

/-- `normalize_minmax(data)`: raises `ValueError` when all elements are equal
(`data.max() == data.min()`), otherwise returns
`(data - data.min()) / (data.max() - data.min())` elementwise.  Array floats
are modelled as rationals. -/
def normalize_minmax (data : List ℚ) : Except String (List ℚ) :=
  if npMax data = npMin data then
    Except.error normalizeErrorMsg
  else
    Except.ok (data.map fun x => (x - npMin data) / (npMax data - npMin data))

/-- A pixel with three channels; an image is a row-major grid of pixels. -/
abbrev Image := List (List (ℕ × ℕ × ℕ))

/-- Modelled from the documented semantics of the external `cv2.cvtColor` with
codes `COLOR_BGR2RGB` and `COLOR_RGB2BGR`: both reverse the channel order of
each 3-channel pixel. -/
def cvtColorSwapRB (p : ℕ × ℕ × ℕ) : ℕ × ℕ × ℕ := (p.2.2, p.2.1, p.1)

/-- `to_rgb(image_data)`: convert from BGR to RGB via `cv2.cvtColor`. -/
def to_rgb (image_data : Image) : Image :=
  image_data.map fun row => row.map cvtColorSwapRB

/-- `to_bgr(image_data)`: convert from RGB to BGR via `cv2.cvtColor`. -/
def to_bgr (image_data : Image) : Image :=
  image_data.map fun row => row.map cvtColorSwapRB

/-! ## Visualization: segmentation maps -/

/-- An RGB color triple (one row of a colormap). -/
abbrev Color := ℕ × ℕ × ℕ

/-- `class Label(NamedTuple)`: an index, an RGB color and an optional display
name.  Class indices in this repository are nonnegative, so `index` is a
natural number. -/
structure Label where
  index : ℕ
  color : Color
  name : Option String
deriving DecidableEq, Repr

/-- `class SegmentationMap(NamedTuple)`: an ordered collection of labels. -/
structure SegmentationMap where
  labels : List Label
deriving DecidableEq, Repr

/-- `SegmentationMap.get_colormap`: `np.array([label.color for label in
self.labels])`, the colors in list order. -/
def SegmentationMap.get_colormap (m : SegmentationMap) : List Color :=
  m.labels.map Label.color

/-- `SegmentationMap.get_labels`: the list of label names when any name is
truthy (a nonempty string), else `None`. -/
def SegmentationMap.get_labels (m : SegmentationMap) : Option (List (Option String)) :=
  let labelnames := m.labels.map Label.name
  if labelnames.any (fun n => n.getD "" ≠ "") then some labelnames else none

/-- The `cityscape_labels` constant of the source. -/
def cityscape_labels : List Label :=
  [⟨0, (128, 64, 128), some "road"⟩,
   ⟨1, (244, 35, 232), some "sidewalk"⟩,
   ⟨2, (70, 70, 70), some "building"⟩,
   ⟨3, (102, 102, 156), some "wall"⟩,
   ⟨4, (190, 153, 153), some "fence"⟩,
   ⟨5, (153, 153, 153), some "pole"⟩,
   ⟨6, (250, 170, 30), some "traffic light"⟩,
   ⟨7, (220, 220, 0), some "traffic sign"⟩,
   ⟨8, (107, 142, 35), some "vegetation"⟩,
   ⟨9, (152, 251, 152), some "terrain"⟩,
   ⟨10, (70, 130, 180), some "sky"⟩,
   ⟨11, (220, 20, 60), some "person"⟩,
   ⟨12, (255, 0, 0), some "rider"⟩,
   ⟨13, (0, 0, 142), some "car"⟩,
   ⟨14, (0, 0, 70), some "truck"⟩,
   ⟨15, (0, 60, 100), some "bus"⟩,
   ⟨16, (0, 80, 100), some "train"⟩,
   ⟨17, (0, 0, 230), some "motorcycle"⟩,
   ⟨18, (119, 11, 32), some "bicycle"⟩,
   ⟨19, (255, 255, 255), some "background"⟩]

/-- `CityScapesSegmentation = SegmentationMap(cityscape_labels)`. -/
def CityScapesSegmentation : SegmentationMap := ⟨cityscape_labels⟩

/-- The `binary_labels` constant of the source. -/
def binary_labels : List Label :=
  [⟨0, (255, 255, 255), some "background"⟩,
   ⟨1, (0, 0, 0), some "foreground"⟩]

/-- `BinarySegmentation = SegmentationMap(binary_labels)`. -/
def BinarySegmentation : SegmentationMap := ⟨binary_labels⟩

/-- A numpy array, as a shape (list of dimension sizes) together with the
row-major flattened data.  Class values in this repository are nonnegative
integral pixel values, modelled as naturals; it is well formed when
`data.length = shape.prod`. -/
structure NpArray where
  shape : List ℕ
  data : List ℕ
deriving DecidableEq, Repr

/-- The ways `segmentation_map_to_image` terminates abnormally: the two
explicit `raise ValueError(...)` statements, the `IndexError` raised by an
out-of-range `result.shape[i]` access, and the error raised by the external
`cv2.findContours` when handed an array that is not a 2-D image. -/
inductive SegError where
  | valueError : String → SegError
  | indexError : SegError
  | cv2Error : SegError
deriving DecidableEq, Repr

/-- The message of the shape `ValueError` of `segmentation_map_to_image`. -/
def shapeErrorMsg : String :=
  "Expected result with shape (H,W) or (1,H,W)"

/-- The message of the distinct-class-count `ValueError` of
`segmentation_map_to_image`. -/
def classCountErrorMsg : String :=
  "Expected max classes in result, got more different output values"

/-- One iteration of the drawing loop of `segmentation_map_to_image`:
`label_index_map = result == label_index` followed by the external
`cv2.findContours` / `cv2.drawContours(..., thickness=cv2.FILLED)` pair.
Modelled from the documented effect of the external routines: every pixel of
the binary region map receives `color` (contour-rasterization artifacts of
OpenCV, such as the filling of holes inside a region, are not modelled). -/
def drawLabel (result : List ℕ) (mask : List Color) (label_index : ℕ) (color : Color) :
    List Color :=
  List.zipWith (fun v m => if v = label_index then color else m) result mask

/-- The full drawing loop `for label_index, color in enumerate(colormap)`
starting from the `np.zeros` mask. -/
def segMask (result : List ℕ) (colormap : List Color) : List Color :=
  (colormap.enum).foldl (fun mask ic => drawLabel result mask ic.1 ic.2)
    (result.map fun _ => ((0, 0, 0) : Color))

/-- Flatten a pixel list into row-major channel data. -/
def flattenColors (l : List Color) : List ℕ :=
  (l.map fun c => [c.1, c.2.1, c.2.2]).flatten

/-- `segmentation_map_to_image(result, colormap, remove_holes)`.

Guard 1 is the source's short-circuit test
`len(result.shape) != 2 and result.shape[0] != 1`: with an empty shape the
`result.shape[0]` access itself raises `IndexError`.  Guard 2 compares
`len(np.unique(result))` (the number of distinct data values, taken before the
`uint8` cast) with `colormap.shape[0]` (the number of colormap rows); its
`elif` squeezes away the leading axis whenever `result.shape[0] == 1`, even for
2-D input.  The `astype(np.uint8)` cast reduces every value modulo `2^8`.  The
mask allocation `np.zeros((result.shape[0], result.shape[1], 3))` raises
`IndexError` when the squeezed shape has fewer than two axes; when it has more
than two, the first `cv2.findContours` call in the loop rejects the non-2-D
array (so only when the colormap is nonempty).  `remove_holes` only selects the
contour-retrieval mode of the external routine and does not affect the painted
pixels in this model. -/
def segmentation_map_to_image (result : NpArray) (colormap : List Color)
    (remove_holes : Bool) : Except SegError NpArray :=
  match result.shape with
  | [] => Except.error SegError.indexError
  | s0 :: srest =>
    if (s0 :: srest).length ≠ 2 ∧ s0 ≠ 1 then
      Except.error (SegError.valueError shapeErrorMsg)
    else if result.data.dedup.length > colormap.length then
      Except.error (SegError.valueError classCountErrorMsg)
    else
      let squeezed : NpArray := if s0 = 1 then ⟨srest, result.data⟩ else ⟨s0 :: srest, result.data⟩
      let cast : List ℕ := squeezed.data.map (· % 2 ^ 8)
      match squeezed.shape with
      | h :: w :: rest =>
        if rest = [] then
          Except.ok ⟨[h, w, 3], flattenColors (segMask cast colormap)⟩
        else if colormap = [] then
          Except.ok ⟨[h, w, 3], List.replicate (h * w * 3) 0⟩
        else
          Except.error SegError.cv2Error
      | _ => Except.error SegError.indexError

/-- The property of raising one of the two `ValueError`s of
`segmentation_map_to_image`. -/
def raisesValueError (r : Except SegError NpArray) : Prop :=
  ∃ m, r = Except.error (SegError.valueError m)

/-! ## Files: download helpers -/

/-- The observable data of a successful `urllib.request.urlopen(url)`:
`suggestedName` models `urlobject.info().get_filename() or
Path(urllib.parse.urlparse(url).path).name` (the filename used when the
`filename` argument is `None`), `contentLength` models
`int(urlobject.info().get("Content-Length", 0))`, and `bytes` is the payload
that `urllib.request.urlretrieve` would write. -/
structure RemoteInfo where
  suggestedName : String
  contentLength : ℕ
  bytes : List ℕ
deriving DecidableEq, Repr

/-- The network: `none` models `urllib.error.HTTPError` on `urlopen`. -/
abbrev Net := String → Option RemoteInfo

/-- The local filesystem: an association list from file paths to contents
(most recent write first).  Directories are not modelled; `mkdir` does not
change any file. -/
abbrev FileSys := List (String × List ℕ)

/-- Contents of the file at path `p`, if it exists. -/
def fsLookup : FileSys → String → Option (List ℕ)
  | [], _ => none
  | (q, b) :: rest, p => if p = q then some b else fsLookup rest p

/-- Write `b` to the file at path `p` (models `urllib.request.urlretrieve`
storing the downloaded payload). -/
def fsWrite (fs : FileSys) (p : String) (b : List ℕ) : FileSys :=
  (p, b) :: fs

/-- Split a character list at every `/`. -/
def splitSegs : List Char → List (List Char)
  | [] => [[]]
  | c :: cs =>
    if c = '/' then [] :: splitSegs cs
    else
      match splitSegs cs with
      | [] => [[c]]
      | seg :: rest => (c :: seg) :: rest

/-- `pathlib.Path(s).parts`: the path components, with a leading root
component for absolute paths and with empty and `.` segments dropped. -/
def pathParts (s : String) : List String :=
  (if s.data.headD ' ' = '/' then ["/"] else []) ++
    ((splitSegs s.data).map fun seg => String.mk seg).filter fun t => t ≠ "" ∧ t ≠ "."

/-- `directory / Path(filename)` when a directory is given, else the bare
filename. -/
def pathJoin (directory : Option String) (filename : String) : String :=
  match directory with
  | none => filename
  | some d => d ++ "/" ++ filename

/-- The exceptions `download_file` can raise: the generic
`Exception("File downloading failed with error: ...")` wrapping an
`HTTPError`, and the `ValueError` for a filename that names more than one path
component. -/
inductive DLError where
  | httpError : DLError
  | valueError : String → DLError
deriving DecidableEq, Repr

/-- The message of the filename `ValueError` of `download_file`. -/
def filenameErrorMsg : String :=
  "filename should refer to the name of the file, excluding the directory. Use the directory parameter to specify a target directory for the downloaded file."

/-- The complete outcome of a `download_file` call: the filesystem after the
call, the returned resolved path (`Except.ok`) or the raised exception
(`Except.error`), and whether a retrieval (an actual download writing the
file) was performed. -/
structure DLResult where
  fs : FileSys
  outcome : Except DLError String
  retrieved : Bool
deriving Repr

/-- `download_file(url, filename, directory, show_progress, silent)`.

The function first opens the URL (raising on `HTTPError`) and derives the
filename from the response when the `filename` argument is `None`; it raises
`ValueError` when the filename has more than one path component; it joins the
optional directory onto the filename; it retrieves the URL into the target
file unless that file already exists with size equal to the `Content-Length`
header; and it returns the resolved target path.  `Path.resolve()` is modelled
as the target path itself; `show_progress` and `silent` only control the
cosmetic progress bar and the `already exists` message, which are not
modelled. -/
def download_file (net : Net) (fs : FileSys) (url : String) (filename : Option String)
    (directory : Option String) (show_progress : Bool) (silent : Bool) : DLResult :=
  match net url with
  | none => ⟨fs, Except.error DLError.httpError, false⟩
  | some info =>
    let fname := filename.getD info.suggestedName
    if (pathParts fname).length > 1 then
      ⟨fs, Except.error (DLError.valueError filenameErrorMsg), false⟩
    else
      let target := pathJoin directory fname
      match fsLookup fs target with
      | some content =>
        if content.length = info.contentLength then
          ⟨fs, Except.ok target, false⟩
        else
          ⟨fsWrite fs target info.bytes, Except.ok target, true⟩
      | none => ⟨fsWrite fs target info.bytes, Except.ok target, true⟩

/-- Python string slicing `s[:-n]`, which drops the last `n` code points (and
yields the empty string when `n` exceeds the length). -/
def strDropRight (s : String) (n : ℕ) : String :=
  ⟨(s.data.reverse.drop n).reverse⟩

/-- `download_ir_model(model_xml_url, destination_folder)`: computes
`model_bin_url = model_xml_url[:-4] + ".bin"`, downloads the xml file (with
`show_progress=False`) and then the bin file into the destination folder, and
returns the path of the downloaded xml file.  An exception from either
`download_file` call propagates; `retrieved` records whether either call
performed a retrieval. -/
def download_ir_model (net : Net) (fs : FileSys) (model_xml_url : String)
    (destination_folder : Option String) : DLResult :=
  let model_bin_url := strDropRight model_xml_url 4 ++ ".bin"
  let r1 := download_file net fs model_xml_url none destination_folder false false
  match r1.outcome with
  | Except.error e => ⟨r1.fs, Except.error e, r1.retrieved⟩
  | Except.ok model_xml_path =>
    let r2 := download_file net r1.fs model_bin_url none destination_folder true false
    match r2.outcome with
    | Except.error e => ⟨r2.fs, Except.error e, r1.retrieved || r2.retrieved⟩
    | Except.ok _ => ⟨r2.fs, Except.ok model_xml_path, r1.retrieved || r2.retrieved⟩

/-! ## Checks and alerts -/

/-- The observable state of a displayed `NotebookAlert`: its message and its
styling class.  Constructing the alert displays it; nothing raises it. -/
structure AlertMsg where
  message : String
  alert_class : String
deriving DecidableEq, Repr

/-- `DeviceNotFoundAlert(device)`: the styled warning alert built from the
device name and the runtime's available-device list (`IECore()` is external;
its `available_devices` report is the `avail` parameter). -/
def DeviceNotFoundAlert (avail : List String) (device : String) : AlertMsg :=
  { message :=
      "Running this cell requires a " ++ device ++
        " device, which is not available on this system. " ++
        (if avail.length = 1 then
          "The following device is available: " ++ avail.headD ""
        else
          "The following devices are available: " ++ String.intercalate ", " avail)
    alert_class := "warning" }

/-- `check_device(device)`: `True` when the device is among the runtime's
available devices; otherwise a `DeviceNotFoundAlert` is constructed (which
displays it) and `False` is returned.  The second component collects the
alerts displayed during the call; the total return type reflects that the
function never raises. -/
def check_device (avail : List String) (device : String) : Bool × List AlertMsg :=
  if device ∈ avail then (true, [])
  else (false, [DeviceNotFoundAlert avail device])

/-! ## Theorems -/

/-- A left fold of a choice function stays inside the initial value and the
list. -/
theorem foldl_choice_mem {α : Type} (f : α → α → α)
    (hf : ∀ a b, f a b = a ∨ f a b = b) (xs : List α) (x : α) :
    xs.foldl f x ∈ x :: xs := by
  induction xs generalizing x with
  | nil => simp
  | cons y ys ih =>
    rw [List.foldl_cons]
    rcases List.mem_cons.mp (ih (f x y)) with h | h
    · rcases hf x y with hfy | hfy
      · rw [h, hfy]
        exact List.mem_cons_self _ _
      · rw [h, hfy]
        exact List.mem_cons_of_mem _ (List.mem_cons_self _ _)
    · exact List.mem_cons_of_mem _ (List.mem_cons_of_mem _ h)

/-- The minimum of a nonempty array is one of its elements. -/
theorem npMin_mem {l : List ℚ} (h : l ≠ []) : npMin l ∈ l := by
  match l, h with
  | x :: xs, _ => exact foldl_choice_mem min min_choice xs x

/-- The maximum of a nonempty array is one of its elements. -/
theorem npMax_mem {l : List ℚ} (h : l ≠ []) : npMax l ∈ l := by
  match l, h with
  | x :: xs, _ => exact foldl_choice_mem max max_choice xs x

/-- C1: on every numeric array whose maximum differs from its minimum,
`normalize_minmax` returns `(data - min) / (max - min)`, under which the
minimum input value maps to `0` and the maximum input value maps to `1` (both
values occur in the output); when all elements are equal (`max = min`) it
raises a `ValueError`. -/
theorem normalize_minmax_spec (l : List ℚ) (h : l ≠ []) :
    (npMax l = npMin l → ∃ m, normalize_minmax l = Except.error m) ∧
    (npMax l ≠ npMin l →
      normalize_minmax l =
          Except.ok (l.map fun x => (x - npMin l) / (npMax l - npMin l)) ∧
      (npMin l - npMin l) / (npMax l - npMin l) = 0 ∧
      (npMax l - npMin l) / (npMax l - npMin l) = 1 ∧
      (0 : ℚ) ∈ l.map (fun x => (x - npMin l) / (npMax l - npMin l)) ∧
      (1 : ℚ) ∈ l.map (fun x => (x - npMin l) / (npMax l - npMin l))) := by
  constructor
  · intro heq
    exact ⟨normalizeErrorMsg, by simp [normalize_minmax, heq]⟩
  · intro hne
    have hd : npMax l - npMin l ≠ 0 := sub_ne_zero_of_ne hne
    refine ⟨by simp [normalize_minmax, hne], by rw [sub_self, zero_div], div_self hd,
      ?_, ?_⟩
    · exact List.mem_map.mpr ⟨npMin l, npMin_mem h, by rw [sub_self, zero_div]⟩
    · exact List.mem_map.mpr ⟨npMax l, npMax_mem h, div_self hd⟩

/-- Witness for C1 at the concrete array `[1, 3]`. -/
theorem normalize_minmax_spec_witness :
    ([(1 : ℚ), 3] ≠ []) ∧ npMax [(1 : ℚ), 3] ≠ npMin [(1 : ℚ), 3] ∧
    normalize_minmax [(1 : ℚ), 3] = Except.ok [0, 1] := by
  have h := (normalize_minmax_spec [(1 : ℚ), 3] (by simp)).2 (by norm_num [npMax, npMin])
  refine ⟨by simp, by norm_num [npMax, npMin], ?_⟩
  rw [h.1]
  norm_num [npMax, npMin]

/-- Reversing the channel order twice is the identity on a pixel. -/
theorem cvtColorSwapRB_involutive (p : ℕ × ℕ × ℕ) :
    cvtColorSwapRB (cvtColorSwapRB p) = p := rfl

/-- C2: converting a 3-channel image from BGR to RGB with `to_rgb` and back
with `to_bgr` restores every pixel (`to_bgr` is a left inverse of `to_rgb`). -/
theorem to_bgr_to_rgb (img : Image) : to_bgr (to_rgb img) = img := by
  have hcomp : cvtColorSwapRB ∘ cvtColorSwapRB = id := funext fun p => rfl
  simp [to_bgr, to_rgb, List.map_map, hcomp]

/-- C3 counterexample: on a 0-dimensional array (shape `()`, one value `7`)
with an empty colormap, the distinct-value count `1` exceeds the `0` colormap
rows, yet `segmentation_map_to_image` raises `IndexError` (from the
`result.shape[0]` access in the shape guard), not `ValueError`. -/
theorem seg_too_many_classes_counterexample :
    (NpArray.mk [] [7]).data.dedup.length > ([] : List Color).length ∧
    ¬ raisesValueError (segmentation_map_to_image ⟨[], [7]⟩ [] false) := by
  refine ⟨by decide, ?_⟩
  rintro ⟨m, hm⟩
  rw [show segmentation_map_to_image ⟨[], [7]⟩ [] false =
      Except.error SegError.indexError from rfl] at hm
  simp at hm

/-- C3 amended: for every result array with at least one axis and every
colormap, if the number of distinct values in the result exceeds the number of
colormap rows then `segmentation_map_to_image` raises a `ValueError` (from the
shape guard or from the class-count guard) and produces no mask. -/
theorem seg_rejects_too_many_classes (result : NpArray) (colormap : List Color)
    (h1 : result.shape ≠ []) (h2 : result.data.dedup.length > colormap.length) :
    raisesValueError (segmentation_map_to_image result colormap false) := by
  obtain ⟨shape, data⟩ := result
  cases shape with
  | nil => exact absurd rfl h1
  | cons s0 srest =>
    simp only at h2
    by_cases hc : (s0 :: srest).length ≠ 2 ∧ s0 ≠ 1
    · refine ⟨shapeErrorMsg, ?_⟩
      simp only [segmentation_map_to_image]
      rw [if_pos hc]
    · refine ⟨classCountErrorMsg, ?_⟩
      simp only [segmentation_map_to_image]
      rw [if_neg hc, if_pos h2]

/-- Witness for the amended C3 at a 2×2 array with four distinct values and a
one-row colormap. -/
theorem seg_rejects_too_many_classes_witness :
    ((NpArray.mk [2, 2] [0, 1, 2, 3]).shape ≠ []) ∧
    (NpArray.mk [2, 2] [0, 1, 2, 3]).data.dedup.length >
      ([(0, 0, 0)] : List Color).length ∧
    raisesValueError (segmentation_map_to_image ⟨[2, 2], [0, 1, 2, 3]⟩ [(0, 0, 0)] false) :=
  ⟨by decide, by decide,
    seg_rejects_too_many_classes ⟨[2, 2], [0, 1, 2, 3]⟩ [(0, 0, 0)] (by decide) (by decide)⟩

/-- C4 counterexample: the 1-dimensional array of shape `(1,)` is neither 2-D
nor 3-D, yet `segmentation_map_to_image` does not raise a `ValueError` on it:
the short-circuit guard `len(result.shape) != 2 and result.shape[0] != 1`
passes it (its leading dimension is 1), and the call fails later with an
`IndexError` instead. -/
theorem seg_bad_shape_counterexample :
    (NpArray.mk [1] [7]).shape.length ≠ 2 ∧ (NpArray.mk [1] [7]).shape.length ≠ 3 ∧
    ¬ raisesValueError (segmentation_map_to_image ⟨[1], [7]⟩ [(9, 9, 9)] false) := by
  refine ⟨by decide, by decide, ?_⟩
  rintro ⟨m, hm⟩
  rw [show segmentation_map_to_image ⟨[1], [7]⟩ [(9, 9, 9)] false =
      Except.error SegError.indexError from rfl] at hm
  simp at hm

/-- C4 amended: `segmentation_map_to_image` raises its shape `ValueError`
exactly for the inputs its guard tests: every array whose number of dimensions
is not 2 and whose leading dimension is not 1.  (Nonconforming shapes with
leading dimension 1, such as `(1,)` or `(1, C, H, W)`, pass the guard and fail
later with a non-`ValueError` error.) -/
theorem seg_rejects_bad_shape (result : NpArray) (colormap : List Color)
    (s0 : ℕ) (srest : List ℕ) (hs : result.shape = s0 :: srest)
    (hlen : result.shape.length ≠ 2) (hs0 : s0 ≠ 1) :
    segmentation_map_to_image result colormap false =
      Except.error (SegError.valueError shapeErrorMsg) := by
  obtain ⟨shape, data⟩ := result
  simp only at hs
  subst hs
  simp only at hlen
  simp only [segmentation_map_to_image]
  rw [if_pos ⟨hlen, hs0⟩]

/-- Witness for the amended C4 at the 1-D array of shape `(3,)`. -/
theorem seg_rejects_bad_shape_witness :
    (NpArray.mk [3] [1, 2, 3]).shape = 3 :: [] ∧
    (NpArray.mk [3] [1, 2, 3]).shape.length ≠ 2 ∧ (3 : ℕ) ≠ 1 ∧
    segmentation_map_to_image ⟨[3], [1, 2, 3]⟩ [(0, 0, 0)] false =
      Except.error (SegError.valueError shapeErrorMsg) :=
  ⟨rfl, by decide, by decide,
    seg_rejects_bad_shape ⟨[3], [1, 2, 3]⟩ [(0, 0, 0)] 3 [] rfl (by decide) (by decide)⟩

/-- C10 (code bug): the accepted 2-D input of shape `(1, 1)` (one pixel of
class 0, one-row colormap, distinct-value count within bounds) does not yield
the `(1, 1, 3)` uint8 mask.  The `elif result.shape[0] == 1` branch squeezes
the leading axis of 2-D arrays too, leaving a 1-D array whose
`result.shape[1]` access raises `IndexError`. -/
theorem seg_squeeze_bug :
    segmentation_map_to_image ⟨[1, 1], [0]⟩ [(255, 255, 255)] false =
      Except.error SegError.indexError := rfl

/-- C5: when the target file already exists and its size equals the remote
`Content-Length`, `download_file` performs no retrieval, leaves the filesystem
(in particular the file contents) unchanged, and still returns the resolved
target path. -/
theorem download_file_skips_matching (net : Net) (fs : FileSys) (url : String)
    (filename : Option String) (directory : Option String)
    (show_progress silent : Bool) (info : RemoteInfo) (content : List ℕ)
    (hnet : net url = some info)
    (hparts : (pathParts (filename.getD info.suggestedName)).length ≤ 1)
    (hexists : fsLookup fs (pathJoin directory (filename.getD info.suggestedName)) =
      some content)
    (hsize : content.length = info.contentLength) :
    download_file net fs url filename directory show_progress silent =
      ⟨fs, Except.ok (pathJoin directory (filename.getD info.suggestedName)), false⟩ := by
  simp only [download_file, hnet]
  rw [if_neg (by omega)]
  simp only [hexists]
  rw [if_pos hsize]

/-- Witness for C5: the file at path `f` exists with the 2 bytes announced by
`Content-Length`, so nothing is retrieved and the filesystem is returned
unchanged. -/
theorem download_file_skips_matching_witness :
    download_file (fun u => if u = "http://x/f" then some ⟨"f", 2, [9, 9]⟩ else none)
        [("f", [1, 2])] "http://x/f" none none true false =
      ⟨[("f", [1, 2])], Except.ok "f", false⟩ :=
  download_file_skips_matching _ _ _ _ _ _ _ ⟨"f", 2, [9, 9]⟩ [1, 2]
    (by decide) (by decide) (by decide) (by decide)

/-- C7: a `filename` argument that resolves to a path of more than one
component (it contains a directory separator) makes `download_file` raise a
`ValueError` without writing any file: the filesystem is returned unchanged
and no retrieval happens.  (The URL must open; a failing URL raises the HTTP
download exception first.) -/
theorem download_file_rejects_separator (net : Net) (fs : FileSys) (url : String)
    (fname : String) (directory : Option String) (show_progress silent : Bool)
    (info : RemoteInfo) (hnet : net url = some info)
    (hparts : (pathParts fname).length > 1) :
    download_file net fs url (some fname) directory show_progress silent =
      ⟨fs, Except.error (DLError.valueError filenameErrorMsg), false⟩ := by
  simp only [download_file, hnet, Option.getD_some]
  rw [if_pos hparts]

/-- Witness for C7 at the filename `a/b`. -/
theorem download_file_rejects_separator_witness :
    (pathParts "a/b").length > 1 ∧
    download_file (fun _ => some ⟨"f", 2, [9, 9]⟩) [] "http://x/f" (some "a/b") none
        true false =
      ⟨[], Except.error (DLError.valueError filenameErrorMsg), false⟩ :=
  ⟨by decide,
    download_file_rejects_separator _ _ _ _ _ _ _ ⟨"f", 2, [9, 9]⟩ rfl (by decide)⟩

/-- Dropping the last four code points of a string that ends in `.xml` strips
that extension, so `url[:-4] + ".bin"` replaces the final extension. -/
theorem strDropRight_append_xml (base : String) :
    strDropRight (base ++ ".xml") 4 = base := by
  apply String.ext
  show ((base ++ ".xml").data.reverse.drop 4).reverse = base.data
  rw [String.data_append]
  rw [show (".xml" : String).data = ['.', 'x', 'm', 'l'] from rfl]
  rw [List.reverse_append]
  rw [List.drop_left' (by decide : (['.', 'x', 'm', 'l'].reverse).length = 4)]
  rw [List.reverse_reverse]

/-- C8: for a descriptor URL `base ++ ".xml"`, `download_ir_model` downloads
the descriptor and the weights file at `base ++ ".bin"` (the same URL with the
final extension replaced), saves both into the destination folder, and returns
the path of the downloaded descriptor file.  The hypotheses say both URLs
open, the derived filenames are single-component, and neither target file
exists yet. -/
theorem download_ir_model_spec (net : Net) (fs : FileSys) (base : String)
    (dest : Option String) (rx rb : RemoteInfo)
    (hx : net (base ++ ".xml") = some rx)
    (hb : net (base ++ ".bin") = some rb)
    (hpx : (pathParts rx.suggestedName).length ≤ 1)
    (hpb : (pathParts rb.suggestedName).length ≤ 1)
    (hfx : fsLookup fs (pathJoin dest rx.suggestedName) = none)
    (hfb : fsLookup fs (pathJoin dest rb.suggestedName) = none)
    (hne : pathJoin dest rb.suggestedName ≠ pathJoin dest rx.suggestedName) :
    download_ir_model net fs (base ++ ".xml") dest =
      ⟨fsWrite (fsWrite fs (pathJoin dest rx.suggestedName) rx.bytes)
          (pathJoin dest rb.suggestedName) rb.bytes,
        Except.ok (pathJoin dest rx.suggestedName), true⟩ ∧
    fsLookup (fsWrite (fsWrite fs (pathJoin dest rx.suggestedName) rx.bytes)
        (pathJoin dest rb.suggestedName) rb.bytes)
      (pathJoin dest rx.suggestedName) = some rx.bytes ∧
    fsLookup (fsWrite (fsWrite fs (pathJoin dest rx.suggestedName) rx.bytes)
        (pathJoin dest rb.suggestedName) rb.bytes)
      (pathJoin dest rb.suggestedName) = some rb.bytes := by
  have h1 : download_file net fs (base ++ ".xml") none dest false false =
      ⟨fsWrite fs (pathJoin dest rx.suggestedName) rx.bytes,
        Except.ok (pathJoin dest rx.suggestedName), true⟩ := by
    simp only [download_file, hx, Option.getD_none]
    rw [if_neg (by omega)]
    simp only [hfx]
  have h2 : download_file net (fsWrite fs (pathJoin dest rx.suggestedName) rx.bytes)
      (base ++ ".bin") none dest true false =
      ⟨fsWrite (fsWrite fs (pathJoin dest rx.suggestedName) rx.bytes)
          (pathJoin dest rb.suggestedName) rb.bytes,
        Except.ok (pathJoin dest rb.suggestedName), true⟩ := by
    simp only [download_file, hb, Option.getD_none]
    rw [if_neg (by omega)]
    have hlook : fsLookup (fsWrite fs (pathJoin dest rx.suggestedName) rx.bytes)
        (pathJoin dest rb.suggestedName) = none := by
      simp only [fsWrite, fsLookup]
      rw [if_neg hne]
      exact hfb
    simp only [hlook]
  refine ⟨?_, ?_, ?_⟩
  · simp only [download_ir_model, strDropRight_append_xml, h1, h2, Bool.or_self]
  · simp only [fsWrite, fsLookup]
    rw [if_neg (Ne.symm hne)]
    simp
  · simp only [fsWrite, fsLookup]
    simp

/-- Witness for C8: a concrete two-URL network; both files land in the
`model` folder and the xml path is returned. -/
theorem download_ir_model_spec_witness :
    download_ir_model
        (fun u =>
          if u = "http://h/m.xml" then some ⟨"m.xml", 1, [1]⟩
          else if u = "http://h/m.bin" then some ⟨"m.bin", 2, [2, 2]⟩ else none)
        [] ("http://h/m" ++ ".xml") (some "model") =
      ⟨[("model/m.bin", [2, 2]), ("model/m.xml", [1])],
        Except.ok "model/m.xml", true⟩ ∧
    fsLookup [("model/m.bin", [2, 2]), ("model/m.xml", [1])] "model/m.xml" = some [1] ∧
    fsLookup [("model/m.bin", [2, 2]), ("model/m.xml", [1])] "model/m.bin" = some [2, 2] :=
  download_ir_model_spec
    (fun u =>
      if u = "http://h/m.xml" then some ⟨"m.xml", 1, [1]⟩
      else if u = "http://h/m.bin" then some ⟨"m.bin", 2, [2, 2]⟩ else none)
    [] "http://h/m" (some "model") ⟨"m.xml", 1, [1]⟩ ⟨"m.bin", 2, [2, 2]⟩
    (by decide) (by decide) (by decide) (by decide) (by decide) (by decide) (by decide)

/-- C6 counterexample: `get_colormap` lists the colors in list order, not by
the `index` field.  In the map whose labels are `Label(index=1, color=(10, 20,
30))` then `Label(index=0, color=(40, 50, 60))`, indexing the colormap by the
first label's index `1` yields `(40, 50, 60)`, not that label's color. -/
theorem get_colormap_counterexample :
    ((⟨1, (10, 20, 30), none⟩ : Label) ∈
      (SegmentationMap.mk
        [⟨1, (10, 20, 30), none⟩, ⟨0, (40, 50, 60), none⟩]).labels) ∧
    (SegmentationMap.mk
        [⟨1, (10, 20, 30), none⟩, ⟨0, (40, 50, 60), none⟩]).get_colormap.get? 1 ≠
      some (10, 20, 30) := by
  constructor
  · exact List.mem_cons_self _ _
  · decide

/-- C6 amended: when every label's `index` field equals its position in the
labels list (as in every `SegmentationMap` defined in the repository), the
derived colormap indexed by a label's index yields that label's color. -/
theorem get_colormap_spec (m : SegmentationMap)
    (hidx : ∀ i : Fin m.labels.length, (m.labels.get i).index = i) :
    ∀ lab ∈ m.labels, m.get_colormap.get? lab.index = some lab.color := by
  intro lab hmem
  obtain ⟨i, hi⟩ := List.mem_iff_get.mp hmem
  subst hi
  rw [hidx i]
  simp only [SegmentationMap.get_colormap, List.get?_map]
  rw [List.get?_eq_get i.isLt]
  rfl

/-- Witness for the amended C6 at `BinarySegmentation` and its `foreground`
label. -/
theorem get_colormap_spec_witness :
    (∀ i : Fin BinarySegmentation.labels.length,
      (BinarySegmentation.labels.get i).index = i) ∧
    BinarySegmentation.get_colormap.get? 1 = some (0, 0, 0) :=
  ⟨by decide,
    get_colormap_spec BinarySegmentation (by decide)
      ⟨1, (0, 0, 0), some "foreground"⟩ (by decide)⟩

/-- C9: `check_device` returns `True` exactly when the device is among the
runtime's available devices; when it is absent, the function displays the
styled `DeviceNotFoundAlert` warning and returns `False` — the alert (an
`Exception` subclass) is constructed and shown, never raised, which the total
return type of the model reflects. -/
theorem check_device_spec (avail : List String) (device : String) :
    ((check_device avail device).1 = true ↔ device ∈ avail) ∧
    (device ∉ avail →
      check_device avail device = (false, [DeviceNotFoundAlert avail device]) ∧
      (DeviceNotFoundAlert avail device).alert_class = "warning") := by
  constructor
  · by_cases h : device ∈ avail
    · simp [check_device, h]
    · simp [check_device, h]
  · intro h
    exact ⟨by simp [check_device, h], rfl⟩

/-- Witness for C9: `GPU` is not among the available devices `[CPU]`, so the
call returns `False` with the warning alert shown. -/
theorem check_device_spec_witness :
    ("GPU" ∉ (["CPU"] : List String)) ∧
    check_device ["CPU"] "GPU" = (false, [DeviceNotFoundAlert ["CPU"] "GPU"]) ∧
    (DeviceNotFoundAlert ["CPU"] "GPU").alert_class = "warning" :=
  ⟨by decide, (check_device_spec ["CPU"] "GPU").2 (by decide)⟩

end NotebookUtils
